import Mathlib

/-!
Verification of the Portrait SDK's document-retrieval core (`src/helpers.ts`)
against its natural-language specification.

The development shallowly embeds the TypeScript source:
  * bytes are `Nat` values below 256, 32-bit words are `Nat` with explicit
    `% 2 ^ 32` where overflow matters;
  * the SHA-256 digest, the CIDv1 wrapping (raw-bytes codec `0x55`) and the
    base32 multibase string form are implemented in full, so that concrete
    identifiers can be evaluated inside proofs;
  * `multiformats`' static `CID.equals(self, other)` is embedded as the
    structural field comparison it performs (it never parses strings: for a
    string argument, `other.code` is `undefined` and the conjunction
    short-circuits to `false`);
  * fallible JavaScript steps are threaded through `Except`/`Option`, and
    network transports are oracle parameters.
-/

set_option maxRecDepth 100000

/-- 2 ^ 32, the modulus for 32-bit word arithmetic in SHA-256. -/
def M32 : Nat := 4294967296

/-- Right rotation of a 32-bit word (input assumed below `M32`). -/
def rotr32 (n x : Nat) : Nat := ((x >>> n) ||| (x <<< (32 - n))) % M32

/-- Big-endian byte decomposition, `n` bytes of `v`. -/
def beBytes : Nat → Nat → List Nat
  | 0, _ => []
  | n + 1, v => beBytes n (v / 256) ++ [v % 256]

/-- One 32-bit word from four big-endian bytes. -/
def wordOf (a b c d : Nat) : Nat := ((a * 256 + b) * 256 + c) * 256 + d

/-- The 64 SHA-256 round constants of FIPS 180-4, written in decimal. -/
def sha256K : List Nat :=
  [1116352408, 1899447441, 3049323471, 3921009573, 961987163, 1508970993,
   2453635748, 2870763221, 3624381080, 310598401, 607225278, 1426881987,
   1925078388, 2162078206, 2614888103, 3248222580, 3835390401, 4022224774,
   264347078, 604807628, 770255983, 1249150122, 1555081692, 1996064986,
   2554220882, 2821834349, 2952996808, 3210313671, 3336571891, 3584528711,
   113926993, 338241895, 666307205, 773529912, 1294757372, 1396182291,
   1695183700, 1986661051, 2177026350, 2456956037, 2730485921, 2820302411,
   3259730800, 3345764771, 3516065817, 3600352804, 4094571909, 275423344,
   430227734, 506948616, 659060556, 883997877, 958139571, 1322822218,
   1537002063, 1747873779, 1955562222, 2024104815, 2227730452, 2361852424,
   2428436474, 2756734187, 3204031479, 3329325298]

/-- The SHA-256 initial hash state of FIPS 180-4, written in decimal. -/
def sha256H0 : List Nat :=
  [1779033703, 3144134277, 1013904242, 2773480762,
   1359893119, 2600822924, 528734635, 1541459225]

/-- Group a byte list into 64-byte blocks (fuel-based so that the
definition reduces inside the kernel; the fuel is the list length, which
always suffices since each step consumes at least one element). -/
def chunks64Aux : Nat → List Nat → List (List Nat)
  | 0, _ => []
  | _, [] => []
  | fuel + 1, l => l.take 64 :: chunks64Aux fuel (l.drop 64)

/-- Group a byte list into 64-byte blocks. -/
def chunks64 (l : List Nat) : List (List Nat) := chunks64Aux l.length l

/-- Read a 64-byte block as 16 big-endian 32-bit words. -/
def blockWords : List Nat → List Nat
  | a :: b :: c :: d :: rest => wordOf a b c d :: blockWords rest
  | _ => []

/-- Extend the 16-word message schedule by `n` further words. -/
def extendW : Nat → List Nat → List Nat
  | 0, w => w
  | n + 1, w =>
    let i := w.length
    let w15 := w.getD (i - 15) 0
    let w2 := w.getD (i - 2) 0
    let s0 := (rotr32 7 w15) ^^^ (rotr32 18 w15) ^^^ (w15 >>> 3)
    let s1 := (rotr32 17 w2) ^^^ (rotr32 19 w2) ^^^ (w2 >>> 10)
    extendW n (w ++ [(w.getD (i - 16) 0 + s0 + w.getD (i - 7) 0 + s1) % M32])

/-- One SHA-256 compression round, acting on the 8-word working state. -/
def sha256Round (st : List Nat) (kw : Nat × Nat) : List Nat :=
  match st with
  | [a, b, c, d, e, f, g, h] =>
    let s1 := (rotr32 6 e) ^^^ (rotr32 11 e) ^^^ (rotr32 25 e)
    let ch := (e &&& f) ^^^ ((e ^^^ (M32 - 1)) &&& g)
    let temp1 := (h + s1 + ch + kw.1 + kw.2) % M32
    let s0 := (rotr32 2 a) ^^^ (rotr32 13 a) ^^^ (rotr32 22 a)
    let maj := (a &&& b) ^^^ (a &&& c) ^^^ (b &&& c)
    let temp2 := (s0 + maj) % M32
    [(temp1 + temp2) % M32, a, b, c, (d + temp1) % M32, e, f, g]
  | other => other

/-- Process one 64-byte block into the running hash state. -/
def sha256Block (state : List Nat) (block : List Nat) : List Nat :=
  let w := extendW 48 (blockWords block)
  let st := (sha256K.zip w).foldl sha256Round state
  (state.zip st).map fun p => (p.1 + p.2) % M32

/-- SHA-256 of a byte sequence, as 32 bytes. -/
def sha256Bytes (msg : List Nat) : List Nat :=
  let padZeros := (119 - msg.length % 64) % 64
  let padded := msg ++ 0x80 :: List.replicate padZeros 0 ++ beBytes 8 (msg.length * 8)
  (((chunks64 padded).foldl sha256Block sha256H0).map (beBytes 4)).flatten

/-- UTF-8 encoding of one character (what `TextEncoder` produces). -/
def utf8Char (c : Char) : List Nat :=
  let n := c.toNat
  if n < 0x80 then [n]
  else if n < 0x800 then [0xC0 + n / 64, 0x80 + n % 64]
  else if n < 0x10000 then
    [0xE0 + n / 4096, 0x80 + n / 64 % 64, 0x80 + n % 64]
  else
    [0xF0 + n / 262144, 0x80 + n / 4096 % 64, 0x80 + n / 64 % 64, 0x80 + n % 64]

/-- UTF-8 encoding of a string (`new TextEncoder().encode(json)`). -/
def utf8Bytes (s : String) : List Nat := (s.data.map utf8Char).flatten

/-- A multihash digest as `multiformats` represents it: the hash-function
code, the digest size, and the full multihash byte sequence
(varint code, varint size, digest bytes). -/
structure MHDigest where
  code : Nat
  size : Nat
  bytes : List Nat
deriving DecidableEq

/-- The value of `sha256.digest` from `multiformats/hashes/sha2`:
code `0x12`, size 32, bytes `0x12 0x20` followed by the SHA-256 digest. -/
def sha256DigestOf (input : List Nat) : MHDigest :=
  ⟨0x12, 32, 0x12 :: 0x20 :: sha256Bytes input⟩

/-- A CID as `multiformats/cid` represents it. -/
structure CIDv where
  version : Nat
  code : Nat
  multihash : MHDigest
deriving DecidableEq

/-- The constructor `CID.createV1(code, digest)`. -/
def cidCreateV1 (code : Nat) (d : MHDigest) : CIDv := ⟨1, code, d⟩

/-- A JavaScript value that may appear as the second argument of the static
`CID.equals`: in this codebase it is either a `CID` object or a plain string
(the hash obtained from the registry is a string). -/
inductive JSVal where
  | str (s : String)
  | cid (c : CIDv)
deriving DecidableEq

/-- Reading the `code` property: on a string it is `undefined` (`none`). -/
def jsCodeField : JSVal → Option Nat
  | .str _ => none
  | .cid c => some c.code

/-- Reading the `version` property: `undefined` on a string. -/
def jsVersionField : JSVal → Option Nat
  | .str _ => none
  | .cid c => some c.version

/-- Reading the `multihash` property: `undefined` on a string. -/
def jsMultihashField : JSVal → Option MHDigest
  | .str _ => none
  | .cid c => some c.multihash

/-- The `Digest.equals` structural comparison of `multiformats`. -/
def digestEquals (a b : MHDigest) : Bool :=
  a.code == b.code && a.size == b.size && a.bytes == b.bytes

/-- The static `CID.equals(self, other)` of `multiformats/cid`: it structurally
compares `other.code`, `other.version` and `other.multihash` against `self`.
It never parses a string: for a string argument every property read yields
`undefined`, so `self.code === other.code` is false and the conjunction
short-circuits. -/
def cidStaticEquals (self : CIDv) (other : JSVal) : Bool :=
  match other with
  | .str _ => false
  | .cid c =>
    self.code == c.code && self.version == c.version &&
      digestEquals self.multihash c.multihash

/-- The source's hash-verification function (`ipfsHashCollision` in
`helpers.ts`): UTF-8 encode the string, take its SHA-256 multihash digest,
wrap it as a CIDv1 with the raw-bytes codec `0x55`, and compare with
`CID.equals` against the expected hash - which is a string, not a CID. -/
def ipfsHashCollision (ipfsHash : String) (json : String) : Bool :=
  let jsonUint8Array := utf8Bytes json
  let digest := sha256DigestOf jsonUint8Array
  let generatedHash := cidCreateV1 0x55 digest
  cidStaticEquals generatedHash (JSVal.str ipfsHash)

/-- The same function with every potentially-throwing JavaScript step
threaded through `Except`. `TextEncoder.encode`, `sha256.digest` and
`CID.createV1` are total on string inputs; the only step that could throw
is `Digest.equals` reading properties of an `undefined` multihash, which is
reached only when `other.code` and `other.version` both match - never for a
string argument, by short-circuit evaluation of `&&`. -/
def cidStaticEqualsE (self : CIDv) (other : JSVal) : Except String Bool :=
  match jsCodeField other with
  | none => Except.ok false
  | some c =>
    if self.code ≠ c then Except.ok false
    else match jsVersionField other with
      | none => Except.ok false
      | some v =>
        if self.version ≠ v then Except.ok false
        else match jsMultihashField other with
          | none => Except.error "TypeError: reading properties of undefined"
          | some mh => Except.ok (digestEquals self.multihash mh)

/-- Exception-threaded `ipfsHashCollision`. -/
def ipfsHashCollisionE (ipfsHash : String) (json : String) : Except String Bool :=
  cidStaticEqualsE (cidCreateV1 0x55 (sha256DigestOf (utf8Bytes json)))
    (JSVal.str ipfsHash)

/-- The RFC 4648 base32 alphabet used by the multibase `b` encoding. -/
def base32Alphabet : List Char := "abcdefghijklmnopqrstuvwxyz234567".data

/-- The eight bits of a byte, most significant first. -/
def bitsOfByte (n : Nat) : List Nat :=
  [n / 128 % 2, n / 64 % 2, n / 32 % 2, n / 16 % 2, n / 8 % 2, n / 4 % 2,
   n / 2 % 2, n % 2]

/-- Group a bit list into 5-bit values, zero-padding the final group. -/
def quintets : List Nat → List Nat
  | a :: b :: c :: d :: e :: rest =>
    (a * 16 + b * 8 + c * 4 + d * 2 + e) :: quintets rest
  | rest =>
    if rest.isEmpty then []
    else [(rest ++ List.replicate (5 - rest.length) 0).foldl
      (fun acc b => acc * 2 + b) 0]

/-- Lowercase base32 without padding, as the multibase `b` encoding uses. -/
def base32Lower (bytes : List Nat) : String :=
  String.mk ((quintets ((bytes.map bitsOfByte).flatten)).map
    fun n => base32Alphabet.getD n 'a')

/-- The canonical string form of the CIDv1 (raw codec, SHA-256) of a byte
sequence: multibase prefix `b` followed by the base32 encoding of the CID
bytes `0x01 0x55 0x12 0x20 ++ digest`. This is what `CID.createV1(0x55,
digest).toString()` produces, i.e. the string-form content identifier of
those bytes. -/
def cidStringOfBytes (bytes : List Nat) : String :=
  "b" ++ base32Lower (1 :: 0x55 :: 0x12 :: 0x20 :: sha256Bytes bytes)

/-- String-form content identifier of a string's UTF-8 bytes. -/
def cidStringOf (s : String) : String := cidStringOfBytes (utf8Bytes s)

/-- JSON values as JavaScript's `JSON.parse` produces them, with one model
restriction: numeric literals are integers (every document in the
behaviours under verification uses integer numerals; double-precision
float formatting is out of scope). -/
inductive Json where
  | null
  | bool (b : Bool)
  | num (n : Int)
  | str (s : String)
  | arr (xs : List Json)
  | obj (fields : List (String × Json))

/-- Lowercase hexadecimal digit. -/
def hexDigit (n : Nat) : Char := "0123456789abcdef".data.getD n '0'

/-- How `JSON.stringify` escapes one character inside a string literal. -/
def escapeJsonChar (c : Char) : List Char :=
  if c = '"' then ['\\', '"']
  else if c = '\\' then ['\\', '\\']
  else if c = '\n' then ['\\', 'n']
  else if c = '\t' then ['\\', 't']
  else if c = '\r' then ['\\', 'r']
  else if c.toNat = 8 then ['\\', 'b']
  else if c.toNat = 12 then ['\\', 'f']
  else if c.toNat < 32 then
    ['\\', 'u', '0', '0', hexDigit (c.toNat / 16), hexDigit (c.toNat % 16)]
  else [c]

/-- A JSON string literal as `JSON.stringify` renders it. -/
def quoteJson (s : String) : String :=
  "\"" ++ String.mk ((s.data.map escapeJsonChar).flatten) ++ "\""

mutual

/-- The canonical serialization `JSON.stringify` produces: no whitespace,
fields in stored order. -/
def jsonStringify : Json → String
  | .null => "null"
  | .bool true => "true"
  | .bool false => "false"
  | .num n => toString n
  | .str s => quoteJson s
  | .arr xs => "[" ++ stringifyItems xs ++ "]"
  | .obj fs => "\x7b" ++ stringifyFields fs ++ "\x7d"

/-- Comma-joined array items of `JSON.stringify`. -/
def stringifyItems : List Json → String
  | [] => ""
  | [x] => jsonStringify x
  | x :: y :: xs => jsonStringify x ++ "," ++ stringifyItems (y :: xs)

/-- Comma-joined object fields of `JSON.stringify`. -/
def stringifyFields : List (String × Json) → String
  | [] => ""
  | [(k, v)] => quoteJson k ++ ":" ++ jsonStringify v
  | (k, v) :: f :: fs =>
    quoteJson k ++ ":" ++ jsonStringify v ++ "," ++ stringifyFields (f :: fs)

end

/-- JSON insignificant whitespace. -/
def isJsonWs (c : Char) : Bool := c = ' ' || c = '\t' || c = '\n' || c = '\r'

/-- Drop leading JSON whitespace. -/
def skipWs : List Char → List Char
  | [] => []
  | c :: cs => if isJsonWs c then skipWs cs else c :: cs

/-- Value of a hexadecimal digit, if any. -/
def hexVal (c : Char) : Option Nat :=
  if '0' ≤ c ∧ c ≤ '9' then some (c.toNat - '0'.toNat)
  else if 'a' ≤ c ∧ c ≤ 'f' then some (c.toNat - 'a'.toNat + 10)
  else if 'A' ≤ c ∧ c ≤ 'F' then some (c.toNat - 'A'.toNat + 10)
  else none

/-- Parse the remainder of a JSON string literal (after the opening quote):
the decoded characters and the input following the closing quote. Fails on
a bad escape or an unterminated literal, as `JSON.parse` does. -/
def parseStringAux : List Char → Option (List Char × List Char)
  | [] => none
  | '"' :: rest => some ([], rest)
  | '\\' :: 'u' :: h1 :: h2 :: h3 :: h4 :: rest =>
    match hexVal h1, hexVal h2, hexVal h3, hexVal h4 with
    | some a, some b, some c, some d =>
      (parseStringAux rest).map fun p =>
        (Char.ofNat (((a * 16 + b) * 16 + c) * 16 + d) :: p.1, p.2)
    | _, _, _, _ => none
  | '\\' :: e :: rest =>
    match
      (if e = '"' then some '"'
       else if e = '\\' then some '\\'
       else if e = '/' then some '/'
       else if e = 'n' then some '\n'
       else if e = 't' then some '\t'
       else if e = 'r' then some '\r'
       else if e = 'b' then some (Char.ofNat 8)
       else if e = 'f' then some (Char.ofNat 12)
       else none) with
    | some c => (parseStringAux rest).map fun p => (c :: p.1, p.2)
    | none => none
  | c :: rest =>
    if c.toNat < 32 then none
    else (parseStringAux rest).map fun p => (c :: p.1, p.2)

/-- Leading run of decimal digits and the rest of the input. -/
def digitSpan : List Char → List Char × List Char
  | [] => ([], [])
  | c :: cs =>
    if c.isDigit then
      let p := digitSpan cs
      (c :: p.1, p.2)
    else ([], c :: cs)

/-- Numeric value of a digit run. -/
def natOfDigits (ds : List Char) : Nat :=
  ds.foldl (fun acc c => acc * 10 + (c.toNat - '0'.toNat)) 0

/-- Parse a JSON integer numeral (optional minus sign, digits, no redundant
leading zero). A following fraction or exponent makes the model parse fail
- the model restricts numbers to integers. -/
def parseNum (cs : List Char) : Option (Int × List Char) :=
  let signed := cs.head? = some '-'
  let cs2 := if signed then cs.tail else cs
  let p := digitSpan cs2
  match p.1 with
  | [] => none
  | d :: ds =>
    if d = '0' ∧ ds ≠ [] then none
    else match p.2 with
      | '.' :: _ => none
      | 'e' :: _ => none
      | 'E' :: _ => none
      | rest =>
        let v : Int := Int.ofNat (natOfDigits (d :: ds))
        some (if signed then -v else v, rest)

mutual

/-- Parse one JSON value (fuel-based recursive descent; the fuel only
bounds recursion depth and every run is supplied enough of it). -/
def parseVal : Nat → List Char → Option (Json × List Char)
  | 0, _ => none
  | fuel + 1, cs =>
    match skipWs cs with
    | 'n' :: 'u' :: 'l' :: 'l' :: rest => some (.null, rest)
    | 't' :: 'r' :: 'u' :: 'e' :: rest => some (.bool true, rest)
    | 'f' :: 'a' :: 'l' :: 's' :: 'e' :: rest => some (.bool false, rest)
    | '"' :: rest =>
      (parseStringAux rest).map fun p => (.str (String.mk p.1), p.2)
    | '[' :: rest =>
      (match skipWs rest with
       | ']' :: r => some (.arr [], r)
       | r2 => (parseItems fuel r2).map fun p => (.arr p.1, p.2))
    | '\x7b' :: rest =>
      (match skipWs rest with
       | '\x7d' :: r => some (.obj [], r)
       | r2 => (parseFields fuel r2).map fun p => (.obj p.1, p.2))
    | cs2 => (parseNum cs2).map fun p => (.num p.1, p.2)

/-- Parse the comma-separated items of a nonempty JSON array, up to and
including the closing bracket. -/
def parseItems : Nat → List Char → Option (List Json × List Char)
  | 0, _ => none
  | fuel + 1, cs =>
    match parseVal fuel cs with
    | none => none
    | some (v, rest) =>
      match skipWs rest with
      | ',' :: r => (parseItems fuel r).map fun p => (v :: p.1, p.2)
      | ']' :: r => some ([v], r)
      | _ => none

/-- Parse the fields of a nonempty JSON object, up to and including the
closing brace. -/
def parseFields : Nat → List Char → Option (List (String × Json) × List Char)
  | 0, _ => none
  | fuel + 1, cs =>
    match skipWs cs with
    | '"' :: rest =>
      (match parseStringAux rest with
       | none => none
       | some (key, r1) =>
         match skipWs r1 with
         | ':' :: r2 =>
           (match parseVal fuel r2 with
            | none => none
            | some (v, r3) =>
              match skipWs r3 with
              | ',' :: r4 =>
                (parseFields fuel r4).map fun p =>
                  ((String.mk key, v) :: p.1, p.2)
              | '\x7d' :: r4 => some ([(String.mk key, v)], r4)
              | _ => none)
         | _ => none)
    | _ => none

end

/-- The platform's `JSON.parse`: parse one value, allow trailing
whitespace, reject anything else. `2 * length + 4` fuel always suffices
since at most two recursive calls occur per input character. -/
def jsonParse (s : String) : Option Json :=
  match parseVal (2 * s.length + 4) s.data with
  | some (v, rest) => if (skipWs rest).isEmpty then some v else none
  | none => none

/-- An error value as this core produces it: either a plain `Error` with a
message, or an `AggregateError` carrying a list of underlying errors. -/
inductive JSError where
  | err (message : String)
  | aggregate (errors : List JSError)

mutual

/-- The plain errors transitively carried by an error value, in order
(an `AggregateError` contains its underlying errors, possibly through
further nested aggregates). -/
def JSError.leaves : JSError → List JSError
  | .err m => [.err m]
  | .aggregate es => leavesList es

/-- Leaves of a list of error values, concatenated in order. -/
def leavesList : List JSError → List JSError
  | [] => []
  | e :: es => e.leaves ++ leavesList es

end

/-- An outbound HTTP request issued by the core. -/
inductive Request where
  | get (url : String)
  | post (url : String) (body : String)

/-- An HTTP response as the gateway fetcher observes it through `fetch`. -/
structure HttpResp where
  ok : Bool
  status : Nat
  statusText : String
  body : String

/-- A pending JavaScript promise holding the boolean it will resolve to.
The source tests such a value directly in an `if` without awaiting it. -/
structure JSPromise (α : Type) where
  resolvesTo : α

/-- JavaScript truthiness of an object value: every object - a `Promise`
included - is truthy, whatever it resolves to. -/
def jsObjectTruthy {α : Type} (_p : JSPromise α) : Bool := true

/-- The error thrown by the gateway fetcher on a non-ok response, with the
message the source builds. -/
def httpStatusError (ipfsGateway : String) (r : HttpResp) : JSError :=
  .err ("Failed to fetch Portrait from IPFS gateway " ++ ipfsGateway ++ ": "
    ++ toString r.status ++ " " ++ r.statusText)

/-- Outcome of one gateway fetch, instrumented with the request it issued
and the string argument passed to `ipfsHashCollision` (when the call was
reached). -/
structure GatewayOut where
  request : Request
  verifierArg : Option String
  result : Except JSError Json

/-- The source's `fetchPortraitFromIPFSGateway`, over an explicit response:
`GET gateway ++ hash`; a non-ok response rejects with the status error; the
body is parsed as JSON (`response.json()`); then the source writes
`if (ipfsHashCollision(ipfsHash, JSON.stringify(portrait)))` WITHOUT
awaiting - the condition is the promise object itself, which is truthy, so
the parsed document is returned whatever the verification would say.
Note also that the argument is the re-serialized `JSON.stringify(portrait)`,
not the original response body. -/
def fetchPortraitFromIPFSGateway (ipfsGateway : String) (resp : HttpResp)
    (ipfsHash : String) : GatewayOut :=
  let req := Request.get (ipfsGateway ++ ipfsHash)
  if resp.ok then
    match jsonParse resp.body with
    | none => ⟨req, none, .error (.err "SyntaxError: Unexpected token in JSON")⟩
    | some portrait =>
      let verification : JSPromise Bool :=
        ⟨ipfsHashCollision ipfsHash (jsonStringify portrait)⟩
      if jsObjectTruthy verification then ⟨req, some (jsonStringify portrait), .ok portrait⟩
      else
        ⟨req, some (jsonStringify portrait),
          .error (.err ("Failed to fetch Portrait from IPFS gateway "
            ++ ipfsGateway ++ ": IPFS hash mismatch"))⟩
  else ⟨req, none, .error (httpStatusError ipfsGateway resp)⟩

/-- One edge of the GraphQL index response
(`data.transactions.edges[i]`): its pagination cursor and node id. -/
structure Edge where
  cursor : String
  id : String

/-- Transport oracle for the archive branch: the index's edge list keyed by
the GraphQL query text it was sent, and the Arweave gateway's response body
keyed by transaction id. -/
structure ArweaveNet where
  edgesFor : String → List Edge
  payload : String → String

/-- The GraphQL query text the source builds by string concatenation.
When `cursor` (resp. `author`) is absent the source concatenates the value
`null`, which JavaScript coerces to the four characters `null` inside the
query text; the `first: 10` argument is only present together with a
cursor. Transcribed verbatim from the template literal in `helpers.ts`. -/
def arweaveQuery (ipfsHash : String) (author : Option String)
    (cursor : Option String) : String :=
  "query \x7b\n        transactions(\n          "
  ++ (match cursor with
      | some c => "first: 10, after: \"" ++ c ++ "\","
      | none => "null")
  ++ "\n          sort: HEIGHT_ASC,\n          tags: [\n            \x7b\n              name: \"IPFS-Add\",\n              values: [],\n            \x7d,\n            \x7b\n              name: \"Protocol\",\n              values: [\"Portrait\"],\n            \x7d,\n            \x7b\n              name: \"IPFS-Add\",\n              values: [\"" ++ ipfsHash ++ "\"]\n            \x7d,\n            "
  ++ (match author with
      | some a => "\x7b name: \"Author\", values: [\"" ++ a ++ "\"] \x7d,"
      | none => "null")
  ++ "\n           ]\n        ) \x7b\n          edges \x7b\n            cursor\n            node \x7b\n              id\n              \n              tags \x7b\n                name\n                value\n              \x7d\n            \x7d\n          \x7d\n        \x7d\n      \x7d"

/-- The POST body `JSON.stringify({ query: ... })` the index query sends. -/
def arweaveRequestBody (ipfsHash : String) (author : Option String)
    (cursor : Option String) : String :=
  jsonStringify (Json.obj [("query", Json.str (arweaveQuery ipfsHash author cursor))])

/-- The per-page candidate loop of `fetchPortraitFromArweave`: for each
edge in order, fetch its payload from the gateway and await
`ipfsHashCollision`; on the first verified payload, return
`JSON.parse(payload)`. Produces the requests issued and the result of the
first verified candidate, if any. -/
def scanEdges (net : ArweaveNet) (arweaveGateway ipfsHash : String) :
    List Edge → List Request × Option (Except JSError Json)
  | [] => ([], none)
  | e :: es =>
    let body := net.payload e.id
    let req := Request.get (arweaveGateway ++ "/" ++ e.id)
    if ipfsHashCollision ipfsHash body then
      ([req],
        some (match jsonParse body with
          | some j => .ok j
          | none => .error (.err "SyntaxError: Unexpected token in JSON")))
    else
      let r := scanEdges net arweaveGateway ipfsHash es
      (req :: r.1, r.2)

/-- The error thrown when the archive search space is exhausted. -/
def notFoundError : JSError :=
  .err "Failed to fetch Portrait from Arweave: IPFS hash not found"

/-- Trace-instrumented outcome of the archive search: every request it
issued, in order, and its result. -/
structure ArwOut where
  trace : List Request
  result : Except JSError Json

/-- The source's `fetchPortraitFromArweave` over the transport oracle:
POST the index query, scan the returned edges in order, and if none
verifies, recurse with `edges[9].cursor` exactly when the page held 10
edges, else throw the not-found error. The source recursion is unbounded
(a hostile index that always answers 10 edges loops forever), so the
embedding carries fuel: `none` means the fuel - never the source - cut the
run short, and every theorem supplies sufficient fuel. The source passes
`author ? author : null` on recursion, which is the identity on our
`Option` author. -/
def fetchPortraitFromArweave (net : ArweaveNet)
    (arweaveGateway arweaveGraphQLprovider ipfsHash : String)
    (author : Option String) : Nat → Option String → Option ArwOut
  | 0, _ => none
  | fuel + 1, cursor =>
    let q := arweaveQuery ipfsHash author cursor
    let post := Request.post arweaveGraphQLprovider
      (arweaveRequestBody ipfsHash author cursor)
    let edges := net.edgesFor q
    let scanned := scanEdges net arweaveGateway ipfsHash edges
    match scanned.2 with
    | some r => some ⟨post :: scanned.1, r⟩
    | none =>
      if edges.length == 10 then
        (fetchPortraitFromArweave net arweaveGateway arweaveGraphQLprovider
            ipfsHash author fuel (some ((edges.getD 9 ⟨"", ""⟩).cursor))).map
          fun o => ⟨post :: scanned.1 ++ o.trace, o.result⟩
      else some ⟨post :: scanned.1, .error notFoundError⟩

/-- Number of index queries (POSTs) in a request trace. -/
def postCount : List Request → Nat
  | [] => 0
  | .post _ _ :: rs => postCount rs + 1
  | .get _ :: rs => postCount rs

/-- An asynchronous task: when it settles and with what. -/
structure JSTask (α : Type) where
  time : Nat
  result : Except JSError α

/-- The error of a rejected task (unreachable placeholder on a fulfilled
one; only applied when every task rejected). -/
def errOf {α : Type} : Except JSError α → JSError
  | .error e => e
  | .ok _ => .err ""

/-- The earliest fulfilled task, ties resolved by argument order. -/
def firstFulfilled {α : Type} (xs : List (JSTask α)) : Option (JSTask α) :=
  xs.foldl
    (fun acc t =>
      match t.result with
      | .ok _ =>
        match acc with
        | none => some t
        | some b => if t.time < b.time then some t else some b
      | .error _ => acc)
    none

/-- When the last task settles. -/
def maxTime {α : Type} (xs : List (JSTask α)) : Nat :=
  xs.foldl (fun m t => max m t.time) 0

/-- Pure model of `Promise.any`: settles with the earliest fulfilled input
(ties by argument order); if every input rejects, it rejects once the last
has, with an `AggregateError` whose `errors` array follows argument order
regardless of rejection timing, per the ECMAScript specification. -/
def promiseAny {α : Type} (xs : List (JSTask α)) : JSTask α :=
  match firstFulfilled xs with
  | some t => t
  | none => ⟨maxTime xs, .error (.aggregate (xs.map fun t => errOf t.result))⟩

/-- The source's `fetchPortraitFromIPFS`: `Promise.any` over one gateway
fetch per mirror, itself wrapped in a second one-element `Promise.any`.
Each mirror is given as its base URL, the response its `fetch` produces,
and the time at which that fetch settles. -/
def fetchPortraitFromIPFS (mirrors : List (String × HttpResp × Nat))
    (ipfsHash : String) : JSTask Json :=
  let ipfs := promiseAny (mirrors.map fun m =>
    ⟨m.2.2, (fetchPortraitFromIPFSGateway m.1 m.2.1 ipfsHash).result⟩)
  promiseAny [ipfs]

/-- The source's top-level `fetchPortrait`: `Promise.any` racing the mirror
branch against the archive branch (`arweaveTime` is when the archive
branch settles; `fuel` bounds its pagination as above). -/
def fetchPortrait (mirrors : List (String × HttpResp × Nat))
    (net : ArweaveNet) (arweaveGateway arweaveGraphQLprovider ipfsHash : String)
    (ethereumAddress : Option String) (arweaveTime fuel : Nat) :
    Option (JSTask Json) :=
  (fetchPortraitFromArweave net arweaveGateway arweaveGraphQLprovider
      ipfsHash ethereumAddress fuel none).map
    fun o => promiseAny
      [fetchPortraitFromIPFS mirrors ipfsHash, ⟨arweaveTime, o.result⟩]


/-- The JavaScript environment `isCollectivePortraitName` runs in: the
value the free identifier `length` resolves to in the enclosing global
scope (`window.length` in a browser; in Node the bare identifier is a
`ReferenceError`, so the browser reading is the one under which the
function evaluates at all), and the two `ethers.utils` predicates the
source delegates to, treated as opaque oracles of the input string. -/
structure JSEnv where
  globalLength : Int
  ethersIsAddress : String → Bool
  ethersIsValidName : String → Bool

/-- The source's `isAddress`: the `ethers` check conjoined with an exact
length of 42 and the `0x` front slice (`typeof value === 'string'` holds
for every modelled input). -/
def isAddress (env : JSEnv) (value : String) : Bool :=
  env.ethersIsAddress value && value.length == 42 && value.take 2 == "0x"

/-- The source's `isValidENSName`: delegation to `ethers.utils.isValidName`. -/
def isValidENSName (env : JSEnv) (value : String) : Bool :=
  env.ethersIsValidName value

/-- One character of the class `[a-z0-9]`. -/
def isLowerAlnum (c : Char) : Bool :=
  ('a' ≤ c && c ≤ 'z') || ('0' ≤ c && c ≤ '9')

/-- The regular expression test of the source (the whole string matches
`[a-z0-9]+`). -/
def regexLowerAlnum (value : String) : Bool :=
  !value.data.isEmpty && value.data.all isLowerAlnum

/-- The source's `isCollectivePortraitName`: the regex test, two
comparisons that read the FREE identifier `length` - the global, not
`value.length` - and the negated address and ENS tests. -/
def isCollectivePortraitName (env : JSEnv) (value : String) : Bool :=
  regexLowerAlnum value &&
    decide (env.globalLength ≥ 3) && decide (env.globalLength ≤ 64) &&
    !isAddress env value && !isValidENSName env value

/-- An observable event in a run of the top-level race: an outbound
request, or the race settling with its winner. -/
inductive FetchEv where
  | request (r : Request)
  | raceSettled

/-- An interleaving of two event sequences that preserves the order within
each. JavaScript's `Promise.any` settles when its first input fulfills but
does not signal the losing task, which keeps executing through its
remaining awaits; hence EVERY interleaving of the two branches' full event
sequences is an admissible execution of `fetchPortrait` - including those
that place the loser's requests after the race has settled. -/
inductive Merge : List FetchEv → List FetchEv → List FetchEv → Prop where
  | nil : Merge [] [] []
  | left {x : FetchEv} {xs ys zs : List FetchEv} :
      Merge xs ys zs → Merge (x :: xs) ys (x :: zs)
  | right {y : FetchEv} {xs ys zs : List FetchEv} :
      Merge xs ys zs → Merge xs (y :: ys) (y :: zs)

/-- All requests in an event sequence. -/
def collectRequests : List FetchEv → List Request
  | [] => []
  | .request r :: rest => r :: collectRequests rest
  | .raceSettled :: rest => collectRequests rest

/-- Requests occurring strictly after the first `raceSettled` event. -/
def requestsAfterSettled : List FetchEv → List Request
  | [] => []
  | .raceSettled :: rest => collectRequests rest
  | .request _ :: rest => requestsAfterSettled rest

/-- Whether `pat` is an initial segment of `s`. -/
def startsWithChars : List Char → List Char → Bool
  | [], _ => true
  | _ :: _, [] => false
  | p :: ps, c :: cs => p == c && startsWithChars ps cs

/-- Whether `pat` occurs contiguously inside the character list. -/
def hasSubChars (pat : List Char) : List Char → Bool
  | [] => pat.isEmpty
  | c :: cs => startsWithChars pat (c :: cs) || hasSubChars pat cs

/-- Whether `pat` occurs as a substring of `s`. -/
def containsSub (s pat : String) : Bool := hasSubChars pat.data s.data

/-- An archive index that answers every query with no edges at all. -/
def emptyIndex : ArweaveNet := ⟨fun _ => [], fun _ => ""⟩

/-- A mirror whose fetch settles at time 0 with a non-ok response of the
given status (the aggregate-failure scenario). -/
def mirrorFail (url : String) (status : Nat) : String × HttpResp × Nat :=
  (url, ⟨false, status, "", ""⟩, 0)

/-- The error the gateway fetcher throws for such a mirror. -/
def mirrorFailError (url : String) (status : Nat) : JSError :=
  httpStatusError url ⟨false, status, "", ""⟩

/-- The string-form content identifier of the bytes of the document
`\x7b"a":1\x7d` (the end-to-end example hash of the specification),
pinned as a literal; the equality with `cidStringOf` is proved below. -/
def H4 : String := "bafkreiablk6x6xgfpiw5ss3vsdyevwaiijzzaxxdh3c45pvomitwvf7ymi"

/-- First index page of the pagination scenario: ten non-matching edges. -/
def page1 : List Edge :=
  [⟨"c1", "t1"⟩, ⟨"c2", "t2"⟩, ⟨"c3", "t3"⟩, ⟨"c4", "t4"⟩, ⟨"c5", "t5"⟩,
   ⟨"c6", "t6"⟩, ⟨"c7", "t7"⟩, ⟨"c8", "t8"⟩, ⟨"c9", "t9"⟩, ⟨"c10", "t10"⟩]

/-- Second index page: ten further non-matching edges. -/
def page2 : List Edge :=
  [⟨"c11", "t11"⟩, ⟨"c12", "t12"⟩, ⟨"c13", "t13"⟩, ⟨"c14", "t14"⟩,
   ⟨"c15", "t15"⟩, ⟨"c16", "t16"⟩, ⟨"c17", "t17"⟩, ⟨"c18", "t18"⟩,
   ⟨"c19", "t19"⟩, ⟨"c20", "t20"⟩]

/-- Third index page: the single candidate whose payload genuinely hashes
to the requested identifier. -/
def page3 : List Edge := [⟨"c21", "t21"⟩]

/-- The pagination-scenario index: page 1 for the initial query, page 2
when continuing from the cursor of page 1's tenth edge, page 3 when
continuing from the cursor of page 2's tenth edge; transaction `t21`
stores the document whose bytes hash to `H4`, every other transaction a
non-matching payload. -/
def net4 : ArweaveNet :=
  ⟨fun q =>
    if q = arweaveQuery H4 none none then page1
    else if q = arweaveQuery H4 none (some "c10") then page2
    else if q = arweaveQuery H4 none (some "c20") then page3
    else [],
   fun tid => if tid = "t21" then "\x7b\"a\":1\x7d" else "x"⟩

/-- The exhaustion-scenario index: a single page of three non-matching
edges for the initial query. -/
def net5 : ArweaveNet :=
  ⟨fun q => if q = arweaveQuery "hash5" none none then
      [⟨"d1", "s1"⟩, ⟨"d2", "s2"⟩, ⟨"d3", "s3"⟩]
    else [],
   fun _ => "x"⟩

/-- The cancellation-scenario index: one page of three candidates, none
matching. -/
def net7 : ArweaveNet :=
  ⟨fun q => if q = arweaveQuery "hash7" none none then
      [⟨"e1", "u1"⟩, ⟨"e2", "u2"⟩, ⟨"e3", "u3"⟩]
    else [],
   fun _ => "x"⟩

/-- The full request trace of the archive branch in the cancellation
scenario: its index POST followed by the three payload GETs. -/
def arwTrace7 : List Request :=
  [Request.post "https://arweave-search.goldsky.com/graphql"
    (arweaveRequestBody "hash7" none none),
   Request.get "https://arweave.net/u1",
   Request.get "https://arweave.net/u2",
   Request.get "https://arweave.net/u3"]

/-- The event sequence of the winning mirror branch in the cancellation
scenario: its single GET, then the race settles with its document. -/
def mirrorEvents7 : List FetchEv :=
  [FetchEv.request (Request.get "https://ipfs.io/ipfs/hash7"),
   FetchEv.raceSettled]

/-- The admissible execution exhibited against the cancellation claim: the
mirror request and the race settlement first, the whole archive trace
after. -/
def sched7 : List FetchEv :=
  mirrorEvents7 ++ arwTrace7.map FetchEv.request

/-- Helper: when no edge of a page verifies, the candidate scan issues one
payload GET per edge and finds nothing. -/
theorem scanEdges_all_unverified (net : ArweaveNet) (gw hash : String)
    (es : List Edge)
    (h : ∀ e ∈ es, ipfsHashCollision hash (net.payload e.id) = false) :
    scanEdges net gw hash es
      = (es.map fun e => Request.get (gw ++ "/" ++ e.id), none) := by
  induction es with
  | nil => rfl
  | cons e es ih =>
    have he : ipfsHashCollision hash (net.payload e.id) = false :=
      h e (List.mem_cons_self e es)
    have ih2 := ih fun x hx => h x (List.mem_cons_of_mem e hx)
    simp [scanEdges, he, ih2]

/-- Helper: payload GETs contribute no index queries to a trace. -/
theorem postCount_map_get (f : Edge → String) (l : List Edge) :
    postCount (l.map fun e => Request.get (f e)) = 0 := by
  induction l with
  | nil => rfl
  | cons e es ih => simp [postCount, ih]

/-- Claim C1: the specification says a document is only ever returned after
`ipfsHashCollision` confirms it hashes to the requested identifier. The
code violates this: the gateway path tests the un-awaited promise returned
by `ipfsHashCollision`, which is truthy whatever boolean it resolves to, so
`fetchPortrait` returns the mirror's document even though the verifier
does not confirm it - here the requested identifier is the true CID of
the document with bytes `\x7b"a":1\x7d` while the mirror serves
`\x7b"b":2\x7d`, and the returned document's verification is `false`. -/
theorem fetchPortrait_returns_unverified_document :
    fetchPortrait
        [("https://ipfs.io/ipfs/", ⟨true, 200, "OK", "\x7b\"b\":2\x7d"⟩, 0)]
        emptyIndex "https://arweave.net"
        "https://arweave-search.goldsky.com/graphql"
        (cidStringOf "\x7b\"a\":1\x7d") none 5 1
      = some ⟨0, Except.ok (Json.obj [("b", Json.num 2)])⟩
    ∧ ipfsHashCollision (cidStringOf "\x7b\"a\":1\x7d")
        (jsonStringify (Json.obj [("b", Json.num 2)])) = false :=
  ⟨rfl, rfl⟩

/-- Claim C2: the specification's verification round-trip
(`verify(hashOf(b), b) = true`) fails on the code: `ipfsHashCollision`
hands `CID.equals` a string where it structurally reads `.code`,
`.version` and `.multihash` properties, so the comparison is false for
EVERY expected string and every input - in particular for the body
`\x7b"a":1\x7d` and its genuine string-form identifier, pinned here as a
base32 literal. -/
theorem ipfsHashCollision_roundtrip_fails :
    (∀ expected input : String, ipfsHashCollision expected input = false)
    ∧ cidStringOf "\x7b\"a\":1\x7d"
      = "bafkreiablk6x6xgfpiw5ss3vsdyevwaiijzzaxxdh3c45pvomitwvf7ymi" :=
  ⟨fun _ _ => rfl, by decide⟩

/-- Claim C3: the specification says the gateway fetcher passes the exact
original byte body to the hash verifier. The code passes
`JSON.stringify(JSON.parse(body))` instead: for the whitespace-laden body
` \x7b "a" : 1 \x7d ` whose bytes hash to the requested identifier, the
argument reaching `ipfsHashCollision` is the re-serialization
`\x7b"a":1\x7d`, a different string (and the fetch succeeds regardless,
since the promise-valued verdict is never awaited). -/
theorem gateway_verifier_gets_reserialized_body :
    (fetchPortraitFromIPFSGateway "https://ipfs.io/ipfs/"
        ⟨true, 200, "OK", " \x7b \"a\" : 1 \x7d "⟩
        (cidStringOf " \x7b \"a\" : 1 \x7d ")).verifierArg
      = some "\x7b\"a\":1\x7d"
    ∧ ("\x7b\"a\":1\x7d" : String) ≠ " \x7b \"a\" : 1 \x7d "
    ∧ (fetchPortraitFromIPFSGateway "https://ipfs.io/ipfs/"
        ⟨true, 200, "OK", " \x7b \"a\" : 1 \x7d "⟩
        (cidStringOf " \x7b \"a\" : 1 \x7d ")).result
      = Except.ok (Json.obj [("a", Json.num 1)]) :=
  ⟨rfl, by decide, rfl⟩

/-- Claim C4: the specification's pagination scenario - two full pages of
ten non-matching candidates, then a matching candidate on page three -
should return that candidate after exactly three index queries. The code
does continue pagination from the tenth candidate's cursor and issues
exactly three queries, but then fails with the not-found error instead of
returning the matching candidate, because `ipfsHashCollision` never
confirms any payload: transaction `t21` stores the very bytes whose
string-form identifier `H4` was requested, and is still rejected. -/
theorem archive_search_misses_true_candidate :
    ((fetchPortraitFromArweave net4 "https://arweave.net"
        "https://arweave-search.goldsky.com/graphql" H4 none 5 none).map
      fun o => (postCount o.trace, o.result))
      = some (3, Except.error notFoundError)
    ∧ H4 = cidStringOf (net4.payload "t21")
    ∧ net4.edgesFor (arweaveQuery H4 none (some "c20")) = [⟨"c21", "t21"⟩] :=
  ⟨rfl, by decide, rfl⟩

/-- Claim C5: when the index page holds fewer than ten results and no
candidate verifies, the archive search fails with the not-found error
after exactly one index query - the trace is that single POST followed
only by the page's payload GETs. -/
theorem archive_search_exhausts_after_one_query (net : ArweaveNet)
    (gw prov hash : String) (author : Option String) (fuel : Nat)
    (hlen : (net.edgesFor (arweaveQuery hash author none)).length < 10)
    (hnv : ∀ e ∈ net.edgesFor (arweaveQuery hash author none),
      ipfsHashCollision hash (net.payload e.id) = false) :
    fetchPortraitFromArweave net gw prov hash author (fuel + 1) none
      = some ⟨Request.post prov (arweaveRequestBody hash author none)
          :: (net.edgesFor (arweaveQuery hash author none)).map
            (fun e => Request.get (gw ++ "/" ++ e.id)),
          Except.error notFoundError⟩
    ∧ postCount (Request.post prov (arweaveRequestBody hash author none)
          :: (net.edgesFor (arweaveQuery hash author none)).map
            (fun e => Request.get (gw ++ "/" ++ e.id))) = 1 := by
  have hscan := scanEdges_all_unverified net gw hash _ hnv
  have hbeq :
      ((net.edgesFor (arweaveQuery hash author none)).length == 10) = false := by
    simp only [beq_eq_false_iff_ne]
    exact Nat.ne_of_lt hlen
  constructor
  · simp [fetchPortraitFromArweave, hscan, hbeq]
  · simp [postCount, postCount_map_get]

/-- Witness for claim C5 at the concrete three-edge index `net5`. -/
theorem archive_search_exhausts_after_one_query_witness :
    fetchPortraitFromArweave net5 "https://arweave.net"
        "https://arweave-search.goldsky.com/graphql" "hash5" none 1 none
      = some ⟨Request.post "https://arweave-search.goldsky.com/graphql"
            (arweaveRequestBody "hash5" none none)
          :: (net5.edgesFor (arweaveQuery "hash5" none none)).map
            (fun e => Request.get ("https://arweave.net" ++ "/" ++ e.id)),
          Except.error notFoundError⟩
    ∧ postCount (Request.post "https://arweave-search.goldsky.com/graphql"
          (arweaveRequestBody "hash5" none none)
        :: (net5.edgesFor (arweaveQuery "hash5" none none)).map
          (fun e => Request.get ("https://arweave.net" ++ "/" ++ e.id))) = 1 :=
  archive_search_exhausts_after_one_query net5 "https://arweave.net"
    "https://arweave-search.goldsky.com/graphql" "hash5" none 0
    (by decide) (fun _ _ => rfl)

/-- Claim C6: when all five mirrors fail with HTTP-status errors and the
archive search fails with the not-found error, `fetchPortrait` rejects
with one aggregate failure whose transitive leaves are exactly the five
mirror errors followed by the archive error (the mirror errors arrive
nested inside the mirror branch's own aggregates). -/
theorem fetchPortrait_aggregates_all_errors (u1 u2 u3 u4 u5 : String)
    (s1 s2 s3 s4 s5 : Nat) (gw prov hash : String) :
    fetchPortrait
        [mirrorFail u1 s1, mirrorFail u2 s2, mirrorFail u3 s3,
         mirrorFail u4 s4, mirrorFail u5 s5]
        emptyIndex gw prov hash none 0 1
      = some ⟨0, Except.error (JSError.aggregate
          [JSError.aggregate [JSError.aggregate
            [mirrorFailError u1 s1, mirrorFailError u2 s2,
             mirrorFailError u3 s3, mirrorFailError u4 s4,
             mirrorFailError u5 s5]],
           notFoundError])⟩
    ∧ JSError.leaves (JSError.aggregate
          [JSError.aggregate [JSError.aggregate
            [mirrorFailError u1 s1, mirrorFailError u2 s2,
             mirrorFailError u3 s3, mirrorFailError u4 s4,
             mirrorFailError u5 s5]],
           notFoundError])
      = [mirrorFailError u1 s1, mirrorFailError u2 s2, mirrorFailError u3 s3,
         mirrorFailError u4 s4, mirrorFailError u5 s5, notFoundError] :=
  ⟨rfl, rfl⟩

/-- Claim C7: the specification requires that once the race's winner has
produced its document, the losing branch issues no further outbound
requests. The code has no cancellation at all - `Promise.any` does not
signal losers and no abort token exists - so the archive branch's full
request sequence is admissible after the race settles: in the schedule
`sched7` the mirror branch wins with a document, yet all four archive
requests (the index POST and three payload GETs) occur after the
settlement, contradicting the claim (and the source's own comment that
the losing function "will be cancelled"). -/
theorem losing_branch_requests_after_winner :
    (fetchPortraitFromIPFSGateway "https://ipfs.io/ipfs/"
        ⟨true, 200, "OK", "\x7b\"a\":1\x7d"⟩ "hash7").result
      = Except.ok (Json.obj [("a", Json.num 1)])
    ∧ fetchPortraitFromArweave net7 "https://arweave.net"
        "https://arweave-search.goldsky.com/graphql" "hash7" none 1 none
      = some ⟨arwTrace7, Except.error notFoundError⟩
    ∧ Merge mirrorEvents7 (arwTrace7.map FetchEv.request) sched7
    ∧ requestsAfterSettled sched7 = arwTrace7 :=
  ⟨rfl, rfl,
    Merge.left (Merge.left (Merge.right (Merge.right (Merge.right
      (Merge.right Merge.nil))))),
    rfl⟩

/-- Claim C8: the specification describes the index query as requesting up
to ten edges and filtering by exactly the protocol tag, the content-hash
tag and an optional author tag, with `after` present exactly when
continuing. The body the code actually builds differs: on the first call
(no cursor) the text contains the spliced characters `null` and has no
`first: 10` and no `after` at all, and every query carries an extra
`IPFS-Add` tag with an empty values list; with a cursor and an author the
`first`/`after` arguments and the author tag do appear and no `null` is
spliced. -/
theorem archive_query_text_malformed :
    containsSub (arweaveQuery "HASH" none none) "null" = true
    ∧ containsSub (arweaveQuery "HASH" none none) "first: 10" = false
    ∧ containsSub (arweaveQuery "HASH" none none) "after" = false
    ∧ containsSub (arweaveQuery "HASH" none none)
        "name: \"IPFS-Add\",\n              values: [],"
      = true
    ∧ containsSub (arweaveQuery "HASH" none none) "values: [\"HASH\"]" = true
    ∧ containsSub (arweaveQuery "HASH" (some "0xA") (some "CUR"))
        "first: 10, after: \"CUR\"," = true
    ∧ containsSub (arweaveQuery "HASH" (some "0xA") (some "CUR"))
        "\x7b name: \"Author\", values: [\"0xA\"] \x7d," = true
    ∧ containsSub (arweaveQuery "HASH" (some "0xA") (some "CUR")) "null"
      = false := by
  refine ⟨?_, ?_, ?_, ?_, ?_, ?_, ?_, ?_⟩ <;> decide

/-- Claim C9: the hash-verification function never throws: for every
expected-identifier string and every input string, each JavaScript step
terminates normally and the function returns `false` on the structural
mismatch rather than raising an error (the only potentially-throwing step,
`Digest.equals` on an undefined property, is short-circuited away). -/
theorem ipfsHashCollision_never_throws :
    ∀ expected input : String,
      ipfsHashCollisionE expected input = Except.ok false :=
  fun _ _ => rfl

/-- Claim C10: `isCollectivePortraitName` reads the free global `length`,
not the input's length, so with the environment fixed its verdict is fully
determined by the lowercase-alphanumeric test, the address test and the
ENS test: two inputs agreeing on those three tests receive the same
verdict whatever their lengths. -/
theorem collective_name_ignores_value_length (env : JSEnv) (v1 v2 : String)
    (hr : regexLowerAlnum v1 = regexLowerAlnum v2)
    (ha : isAddress env v1 = isAddress env v2)
    (he : isValidENSName env v1 = isValidENSName env v2) :
    isCollectivePortraitName env v1 = isCollectivePortraitName env v2 := by
  simp only [isCollectivePortraitName, hr, ha, he]

/-- Witness for claim C10: a 2-character and a 10-character input agreeing
on all three tests receive the same verdict. -/
theorem collective_name_ignores_value_length_witness :
    isCollectivePortraitName ⟨0, fun _ => false, fun _ => false⟩ "ab"
      = isCollectivePortraitName ⟨0, fun _ => false, fun _ => false⟩
        "abcdefghij" :=
  collective_name_ignores_value_length ⟨0, fun _ => false, fun _ => false⟩
    "ab" "abcdefghij" (by decide) (by decide) rfl
